import Mathlib

/-!
Verification of the batch video/image generation core of the `veo3` desktop
application.  The definitions below are a shallow embedding of
`src/lib/gemini.ts` (request submission, long-poll loop, sample download,
single-item generation, batch orchestration) and of the cancellation handling
of the image tab (`BananaTab`).  Network effects are represented by an
explicit trace of events, and the remote provider is represented by an
environment that supplies the responses observed at each network round-trip.
The cooperative cancellation token (`AbortSignal`) is represented by the
sequence of boolean values it is observed to hold at the successive
checkpoints where the code consults it (`Nat → Bool`; an absent token is the
constant-`false` sequence).
-/

namespace Veo3

/-- Observable effects of one generation run: the initial submission `POST`,
a `setTimeout` sleep of the given number of milliseconds, one `GET` status
query of the long-running operation, and the `GET` download of the sample
with the given index. -/
inductive Ev : Type where
  | submitCall : Ev
  | sleep : Nat → Ev
  | statusQuery : Ev
  | download : Nat → Ev
deriving DecidableEq, Repr

/-- A status update delivered through the `onUpdate` observer callback,
mirroring the partial `VideoResult` objects passed in `gemini.ts`:
a loading marker, a success payload carrying `videoBlobUrls` and
`videoFilePaths`, or an error message. -/
inductive Update : Type where
  | loading : Update
  | success : List String → List String → Update
  | error : String → Update
deriving DecidableEq, Repr

/-- A terminal update is `success` or `error`; `loading` is not terminal. -/
def isTerminal : Update → Bool
  | .loading => false
  | .success _ _ => true
  | .error _ => true

/-- JavaScript `x || d` on an optional string field: the default is taken
both when the field is absent and when it is the (falsy) empty string. -/
def jsOr (s : Option String) (d : String) : String :=
  match s with
  | some m => if m = "" then d else m
  | none => d

/-- One response to the status query `GET {BASE_URL}/{operationName}?key=...`:
whether the HTTP response was 2xx (`ok`), the `error.message` field of the
error body otherwise, the `done` flag, and the
`response.generateVideoResponse.generatedSamples` list (each sample reduced
to its `video.uri`), `none` when the field is absent. -/
structure PollResp : Type where
  ok : Bool
  errMsg : Option String
  done : Bool
  samples : Option (List String)

/-- Environment for the download phase of a completed operation: for the
sample with index `i`, whether the `fetch` of its URI succeeds (`fetchOk`),
the HTTP status code otherwise, the object URL `URL.createObjectURL` returns
for the fetched blob, the result of saving the blob under the synthesized
filename (`.ok path` or a thrown error), and the value `Date.now()` returns
when the filename is synthesized. -/
structure DlEnv : Type where
  fetchOk : Nat → Bool
  fetchStatus : Nat → Nat
  blobUrl : Nat → String
  save : Nat → String → Except String String
  now : Nat → Nat

/-- Filename synthesized for the `i`-th sample in `pollOperation`:
`` `veo3_${Date.now()}_${i}.mp4` ``. -/
def mkVideoFilename (t i : Nat) : String :=
  "veo3_" ++ Nat.repr t ++ "_" ++ Nat.repr i ++ ".mp4"

/-- The sequential download loop of `pollOperation` over the sample list,
starting at sample index `i`.  Each iteration fetches the sample
(`downloadVideoBlob`, whose failure throws and aborts the whole loop),
records the object URL, and then tries to save the blob to disk; a save
failure is caught and logged, so the sample is merely omitted from the file
path list.  Returns the trace of download events together with either the
thrown error or the accumulated `(blobUrls, filePaths)`. -/
def downloadLoop (dl : DlEnv) : Nat → List String →
    List Ev × Except String (List String × List String)
  | _, [] => ([], .ok ([], []))
  | i, _uri :: rest =>
    if dl.fetchOk i then
      let bu := dl.blobUrl i
      let fn := mkVideoFilename (dl.now i) i
      match dl.save i fn, downloadLoop dl (i + 1) rest with
      | .ok p, (evs, .ok (us, ps)) => (.download i :: evs, .ok (bu :: us, p :: ps))
      | .error _, (evs, .ok (us, ps)) => (.download i :: evs, .ok (bu :: us, ps))
      | _, (evs, .error m) => (.download i :: evs, .error m)
    else
      ([.download i], .error ("Failed to download video: " ++ Nat.repr (dl.fetchStatus i)))

/-- The `while (true)` polling loop of `pollOperation`.  `signal k` is the
value of `signal?.aborted` at the `k`-th checkpoint reached inside the loop
(two checkpoints per iteration: before and after the 10-second sleep).
`polls` is the finite prefix of status-query responses the provider has
produced; when the loop outlives it, the run is still in flight and the
outcome is `none`.  Otherwise the outcome is `some` of the thrown error or
of the returned `(blobUrls, filePaths)`. -/
def pollLoop (dl : DlEnv) (signal : Nat → Bool) :
    List PollResp → List Ev × Option (Except String (List String × List String))
  | [] =>
    if signal 0 then ([], some (.error "Cancelled"))
    else if signal 1 then ([.sleep 10000], some (.error "Cancelled"))
    else ([.sleep 10000], none)
  | r :: rest =>
    if signal 0 then ([], some (.error "Cancelled"))
    else if signal 1 then ([.sleep 10000], some (.error "Cancelled"))
    else if r.ok = false then
      ([.sleep 10000, .statusQuery], some (.error (jsOr r.errMsg "Polling failed")))
    else if r.done then
      match r.samples with
      | none => ([.sleep 10000, .statusQuery], some (.error "No video in response"))
      | some [] => ([.sleep 10000, .statusQuery], some (.error "No video in response"))
      | some uris =>
        let d := downloadLoop dl 0 uris
        (.sleep 10000 :: .statusQuery :: d.1, some d.2)
    else
      let pr := pollLoop dl (fun k => signal (k + 2)) rest
      (.sleep 10000 :: .statusQuery :: pr.1, pr.2)

/-- Response to the submission call
`POST {BASE_URL}/models/{model}:predictLongRunning?key=...`: whether it was
2xx, the `error.message` of the error body otherwise, and the `name`
(operation identifier) field of the success body. -/
structure SubmitResp : Type where
  ok : Bool
  errMsg : Option String
  name : Option String

/-- Outcome of `startVideoGeneration` as a function of the response of the provider: non-2xx throws the provider message (or the fallback), a missing
or empty (falsy) `name` throws, otherwise the operation name is returned. -/
def startVideoGeneration (r : SubmitResp) : Except String String :=
  if r.ok then
    match r.name with
    | some n => if n = "" then .error "No operation name returned" else .ok n
    | none => .error "No operation name returned"
  else
    .error (jsOr r.errMsg "Failed to start video generation")

/-- Environment of one `generateVideo` call: the submission response, the
observed cancellation-token values (checkpoint 0 is the aborted-token check
right after submission; the checkpoints of the polling loop follow), the status-query responses, and the download
environment. -/
structure GenEnv : Type where
  submit : SubmitResp
  signal : Nat → Bool
  polls : List PollResp
  dl : DlEnv

/-- Result of running `generateVideo` against an environment: the network
events issued, the updates delivered to `onUpdate` in order, and whether the
run has finished (`false` when the polling loop is still in flight beyond
the provided responses). -/
structure GenRun : Type where
  events : List Ev
  updates : List Update
  finished : Bool
deriving DecidableEq, Repr

/-- `generateVideo`: report `loading`, submit, consult the token once, poll,
and convert every thrown error into a single `error` update; a completed
poll yields a single `success` update. -/
def generateVideo (env : GenEnv) : GenRun :=
  match startVideoGeneration env.submit with
  | .error m => ⟨[.submitCall], [.loading, .error m], true⟩
  | .ok _ =>
    if env.signal 0 then
      ⟨[.submitCall], [.loading, .error "Cancelled"], true⟩
    else
      let pr := pollLoop env.dl (fun k => env.signal (k + 1)) env.polls
      match pr.2 with
      | none => ⟨.submitCall :: pr.1, [.loading], false⟩
      | some (.error m) => ⟨.submitCall :: pr.1, [.loading, .error m], true⟩
      | some (.ok (us, ps)) => ⟨.submitCall :: pr.1, [.loading, .success us ps], true⟩

/-- `generateBatch` wraps the `generateVideo` call of each request with a
callback that re-attaches the positional index; per item the delivered
update sequence is exactly that of `generateVideo` on the environment of
that item. -/
def generateBatch (envs : List GenEnv) : List (Nat × GenRun) :=
  (List.range envs.length).zip (envs.map generateVideo)

/-- An `{ inlineData: { mimeType, data } }` wrapper as placed in the request
body. -/
structure InlineData : Type where
  mimeType : String
  data : String
deriving DecidableEq, Repr

/-- An input image as held in `GenerateVideoParams`: base64 payload plus
mime type. -/
structure ImageInput : Type where
  base64 : String
  mimeType : String
deriving DecidableEq, Repr

/-- The aspect-ratio enum (16:9 or 9:16). -/
inductive AspectRatio : Type where
  | sixteenByNine : AspectRatio
  | nineBySixteen : AspectRatio
deriving DecidableEq, Repr

/-- The request-shaping fields of `GenerateVideoParams` (the credential,
save directory and signal do not influence the request body shape beyond
what is modelled elsewhere). -/
structure GenerateVideoParams : Type where
  prompt : String
  model : String
  apiKey : String
  aspectRatio : Option AspectRatio
  saveDir : Option String
  image : Option ImageInput
  lastFrame : Option ImageInput
  referenceImages : Option (List ImageInput)

/-- One entry of the `parameters.referenceImages` list:
`{ image: { inlineData }, referenceType: "asset" }`. -/
structure RefImageEntry : Type where
  image : InlineData
  referenceType : String
deriving DecidableEq, Repr

/-- The single element of the `instances` array: the prompt and, when a
primary image is present, its inline data. -/
structure RequestInstance : Type where
  prompt : String
  image : Option InlineData
deriving DecidableEq, Repr

/-- The optional `parameters` object; a `none` field is an absent key. -/
structure RequestParameters : Type where
  aspectRatio : Option AspectRatio
  lastFrame : Option InlineData
  referenceImages : Option (List RefImageEntry)
deriving DecidableEq, Repr

/-- The provider request body `{ instances, parameters? }`; `parameters` is
`none` when the key is left out of the body. -/
structure RequestBody : Type where
  instances : List RequestInstance
  parameters : Option RequestParameters
deriving DecidableEq, Repr

/-- `{ inlineData: { mimeType, data: base64 } }` for an input image. -/
def toInline (img : ImageInput) : InlineData :=
  ⟨img.mimeType, img.base64⟩

/-- Whether `startVideoGeneration` puts any key into the `parameters`
object (`Object.keys(parameters).length > 0`). -/
def hasParameters (p : GenerateVideoParams) : Bool :=
  p.aspectRatio.isSome || p.lastFrame.isSome ||
    (match p.referenceImages with
     | some refs => decide (0 < refs.length)
     | none => false)

/-- The request body built by `startVideoGeneration`: one instance holding
the prompt and the optional primary image, and the `parameters` object with
exactly the keys the code conditionally assigns, included only when at
least one key was assigned. -/
def buildRequestBody (p : GenerateVideoParams) : RequestBody :=
  let inst : RequestInstance := ⟨p.prompt, p.image.map toInline⟩
  let ps : RequestParameters :=
    ⟨p.aspectRatio,
     p.lastFrame.map toInline,
     match p.referenceImages with
     | some refs =>
       if 0 < refs.length then
         some (refs.map fun img => ⟨toInline img, "asset"⟩)
       else none
     | none => none⟩
  ⟨[inst], if hasParameters p then some ps else none⟩

/-- The fixed video-generation concurrency cap: `const limit = pLimit(2)` in
`src/lib/gemini.ts`. -/
def videoConcurrencyLimit : Nat := 2

/-- The fixed image-variant concurrency cap: `const limit = pLimit(3)` in
the image tab. -/
def imageConcurrencyLimit : Nat := 3

/-- Modelled from the spec: the `p-limit` bounded worker pool used by
`generateBatch` (its implementation is a third-party dependency, not part of
the sources of this repository).  Per the spec it is "a classic bounded
worker-pool / semaphore pattern: tasks beyond the cap queue until a slot
frees", with tasks entering the pool in input-array order.  A state holds
the cap, the queued task indices in order, the currently running tasks, the
completed tasks, and the history of started tasks in start order.  A task is
in its `loading` phase exactly while it is in `active`: `generateVideo`
emits `loading` as its first action when the pool starts it and its terminal
update when it completes. -/
structure PoolState : Type where
  cap : Nat
  pending : List Nat
  active : List Nat
  completed : List Nat
  started : List Nat
deriving DecidableEq, Repr

/-- Modelled from the spec: the initial pool state for a batch of `n` tasks
under cap `cap`: all task indices queued in input order, nothing running. -/
def initPool (cap n : Nat) : PoolState :=
  ⟨cap, List.range n, [], [], []⟩

/-- Modelled from the spec: one scheduler transition of the bounded worker
pool.  A queued task may start only when a slot is free
(`active.length < cap`), and the task started is always the head of the
queue; any running task may complete, freeing its slot. -/
inductive PoolStep : PoolState → PoolState → Prop where
  | start (s : PoolState) (i : Nat) (rest : List Nat) :
      s.pending = i :: rest →
      s.active.length < s.cap →
      PoolStep s ⟨s.cap, rest, s.active ++ [i], s.completed, s.started ++ [i]⟩
  | complete (s : PoolState) (i : Nat) :
      i ∈ s.active →
      PoolStep s ⟨s.cap, s.pending, s.active.erase i, s.completed ++ [i], s.started⟩

/-- Modelled from the spec: the states the worker pool can reach from a
given initial state. -/
inductive PoolReachable (s0 : PoolState) : PoolState → Prop where
  | refl : PoolReachable s0 s0
  | step {s t : PoolState} : PoolReachable s0 s → PoolStep s t → PoolReachable s0 t

/-- A status update written by the `generateSingle` of the image tab via
`setItems` for its item: mirrors the `PromptItem` status writes. -/
inductive ImUpdate : Type where
  | loading : ImUpdate
  | success : List String → ImUpdate
  | error : String → ImUpdate
deriving DecidableEq, Repr

/-- The `generateSingle` of the image tab (BananaTab), reduced to its observable
per-item update sequence and whether the `generateContent` network call was
issued.  `sig k` is the observed token value at the `k`-th checkpoint: the
check before the API call, the check after it, and the `!signal.aborted`
conjunct guarding the no-image throw.  `images` is the list of images
extracted from the API response.  Cancellation observed at either of the
first two checkpoints throws, and the catch clause returns without writing
any further update, so the item keeps its `loading` status. -/
def generateSingleImage (sig : Nat → Bool) (images : List String) :
    List ImUpdate × Bool :=
  if sig 0 then ([.loading], false)
  else if sig 1 then ([.loading], true)
  else if images.isEmpty then
    if sig 2 then ([.loading, .success []], true)
    else ([.loading, .error "Không nhận được ảnh từ API. Kiểm tra prompt hoặc settings."], true)
  else ([.loading, .success images], true)

/-- The task body `handleGenerateAll` hands to the pool of the image tab:
`if (controller.signal.aborted) return;` and otherwise `generateSingle`.
A task whose pre-check observes the token set issues no network call and
writes no update at all. -/
def imageBatchTask (sig : Nat → Bool) (images : List String) :
    List ImUpdate × Bool :=
  if sig 0 then ([], false)
  else generateSingleImage (fun k => sig (k + 1)) images

/-! Decimal-representation helpers: `Nat.repr` (the `${...}` interpolation of
a number in the synthesized filename) is injective.  This is established by
decoding the digit string back to the number. -/

/-- Numeric value of a decimal digit character. -/
def digitVal (c : Char) : Nat := c.toNat - 48

/-- Decode a big-endian decimal digit string. -/
def decodeDigits (l : List Char) : Nat :=
  l.foldl (fun a c => a * 10 + digitVal c) 0

lemma digitVal_digitChar (m : Nat) (h : m < 10) : digitVal (Nat.digitChar m) = m := by
  interval_cases m <;> rfl

lemma foldl_toDigitsCore (fuel : Nat) :
    ∀ (n : Nat) (ds : List Char), n < fuel →
      List.foldl (fun a c => a * 10 + digitVal c) 0 (Nat.toDigitsCore 10 fuel n ds) =
        List.foldl (fun a c => a * 10 + digitVal c) n ds := by
  induction fuel with
  | zero => intro n ds h; exact absurd h (Nat.not_lt_zero n)
  | succ f ih =>
    intro n ds h
    by_cases h10 : n / 10 = 0
    · have hn : n < 10 := by omega
      have hstep : Nat.toDigitsCore 10 (f + 1) n ds = Nat.digitChar (n % 10) :: ds := by
        simp [Nat.toDigitsCore, h10]
      rw [hstep, List.foldl_cons]
      have hv : digitVal (Nat.digitChar (n % 10)) = n % 10 :=
        digitVal_digitChar _ (Nat.mod_lt _ (by norm_num))
      rw [hv]
      have : 0 * 10 + n % 10 = n := by omega
      rw [this]
    · have hpos : 0 < n := by
        rcases Nat.eq_zero_or_pos n with h0 | h0
        · exact absurd (by simp [h0]) h10
        · exact h0
      have hlt : n / 10 < f := by
        have h1 : n / 10 < n := Nat.div_lt_self hpos (by norm_num)
        omega
      have hstep : Nat.toDigitsCore 10 (f + 1) n ds =
          Nat.toDigitsCore 10 f (n / 10) (Nat.digitChar (n % 10) :: ds) := by
        simp [Nat.toDigitsCore, h10]
      rw [hstep, ih (n / 10) _ hlt, List.foldl_cons]
      have hv : digitVal (Nat.digitChar (n % 10)) = n % 10 :=
        digitVal_digitChar _ (Nat.mod_lt _ (by norm_num))
      rw [hv]
      have : n / 10 * 10 + n % 10 = n := by omega
      rw [this]

lemma decodeDigits_repr (n : Nat) : decodeDigits (Nat.repr n).data = n := by
  have h := foldl_toDigitsCore (n + 1) n [] (Nat.lt_succ_self n)
  simpa [decodeDigits, Nat.repr, Nat.toDigits, List.asString] using h

lemma repr_nat_inj {m n : Nat} (h : Nat.repr m = Nat.repr n) : m = n := by
  have hd : decodeDigits (Nat.repr m).data = decodeDigits (Nat.repr n).data := by rw [h]
  rwa [decodeDigits_repr, decodeDigits_repr] at hd

lemma mkVideoFilename_index_inj {t i j : Nat}
    (h : mkVideoFilename t i = mkVideoFilename t j) : i = j := by
  have hd := congrArg String.data h
  simp only [mkVideoFilename, String.data_append, List.append_assoc] at hd
  have h1 := List.append_cancel_left hd
  have h2 := List.append_cancel_left h1
  have h3 := List.append_cancel_left h2
  have h4 : (Nat.repr i).data = (Nat.repr j).data := List.append_cancel_right h3
  have h5 : decodeDigits (Nat.repr i).data = decodeDigits (Nat.repr j).data := by rw [h4]
  rwa [decodeDigits_repr, decodeDigits_repr] at h5

/-! Invariants of the bounded worker pool. -/

lemma pool_invariant {cap n : Nat} {s : PoolState}
    (h : PoolReachable (initPool cap n) s) :
    s.cap = cap ∧ s.active.length ≤ cap ∧ s.started ++ s.pending = List.range n := by
  induction h with
  | refl => exact ⟨rfl, by simp [initPool], by simp [initPool]⟩
  | step hr hs ih =>
    obtain ⟨hc, ha, hsp⟩ := ih
    cases hs with
    | start i rest hpend hlt =>
      refine ⟨hc, ?_, ?_⟩
      · simp only [List.length_append, List.length_cons, List.length_nil]
        omega
      · rw [List.append_assoc]
        simpa [hpend] using hsp
    | complete i hmem =>
      exact ⟨hc, le_trans (List.Sublist.length_le (List.erase_sublist _ _)) ha, hsp⟩

/-! Behaviour of the sequential download loop. -/

lemma downloadLoop_ok_shape (dl : DlEnv) :
    ∀ (uris : List String) (i : Nat),
      (∀ k, k < uris.length → dl.fetchOk (i + k) = true) →
      ∃ us ps, (downloadLoop dl i uris).2 = .ok (us, ps) ∧
        us.length = uris.length ∧ ps.length ≤ uris.length := by
  intro uris
  induction uris with
  | nil => intro i _; exact ⟨[], [], rfl, rfl, Nat.le_refl 0⟩
  | cons u rest ih =>
    intro i h
    have h0 : dl.fetchOk i = true := by simpa using h 0 (by simp)
    obtain ⟨us, ps, hres, hlen, hle⟩ := ih (i + 1) (fun k hk => by
      have hx := h (k + 1) (by simpa using Nat.succ_lt_succ hk)
      have he : i + (k + 1) = i + 1 + k := by omega
      rwa [he] at hx)
    rcases hrec : downloadLoop dl (i + 1) rest with ⟨evs, res⟩
    rw [hrec] at hres
    simp only at hres
    subst hres
    cases hsv : dl.save i (mkVideoFilename (dl.now i) i) with
    | ok p =>
      refine ⟨dl.blobUrl i :: us, p :: ps, ?_, by simp [hlen], by simp; omega⟩
      simp [downloadLoop, h0, hsv, hrec]
    | error e =>
      refine ⟨dl.blobUrl i :: us, ps, ?_, by simp [hlen], by simp; omega⟩
      simp [downloadLoop, h0, hsv, hrec]

lemma downloadLoop_fetch_fail (dl : DlEnv) :
    ∀ (uris : List String) (i j : Nat), j < uris.length →
      (∀ k, k < j → dl.fetchOk (i + k) = true) → dl.fetchOk (i + j) = false →
      (downloadLoop dl i uris).2 =
        .error ("Failed to download video: " ++ Nat.repr (dl.fetchStatus (i + j))) := by
  intro uris
  induction uris with
  | nil => intro i j hj; simp at hj
  | cons u rest ih =>
    intro i j hj hpre hbad
    cases j with
    | zero =>
      have hb : dl.fetchOk i = false := by simpa using hbad
      simp [downloadLoop, hb]
    | succ j' =>
      have h0 : dl.fetchOk i = true := by simpa using hpre 0 (Nat.succ_pos _)
      have hrec2 := ih (i + 1) j' (by simpa using hj)
        (fun k hk => by
          have hx := hpre (k + 1) (by omega)
          have he : i + (k + 1) = i + 1 + k := by omega
          rwa [he] at hx)
        (by
          have he : i + (j' + 1) = i + 1 + j' := by omega
          rwa [he] at hbad)
      rcases hrec : downloadLoop dl (i + 1) rest with ⟨evs, res⟩
      rw [hrec] at hrec2
      simp only at hrec2
      subst hrec2
      have he : i + 1 + j' = i + (j' + 1) := by omega
      cases hsv : dl.save i (mkVideoFilename (dl.now i) i) with
      | ok p => simp [downloadLoop, h0, hsv, hrec, he]
      | error e => simp [downloadLoop, h0, hsv, hrec, he]

/-! Concrete environments used as witnesses and counterexamples. -/

/-- A download environment in which every fetch and every save succeeds. -/
def dlTriv : DlEnv :=
  ⟨fun _ => true, fun _ => 200, fun i => "blob" ++ Nat.repr i,
   fun i _ => .ok ("path" ++ Nat.repr i), fun _ => 1700000000000⟩

/-- A submission response the provider accepts, carrying an operation name. -/
def submitOk : SubmitResp := ⟨true, none, some "operations/op-1"⟩

/-- A status response reporting completion with one produced sample. -/
def doneOneSample : PollResp := ⟨true, none, true, some ["uri0"]⟩

/-- A status response reporting completion with an empty sample list. -/
def doneEmpty : PollResp := ⟨true, none, true, some []⟩

/-- A status response reporting the operation as still running. -/
def neverDone : PollResp := ⟨true, none, false, none⟩

/-- A run whose submission succeeds, whose token is never set, and whose
first status query reports completion with one sample. -/
def envHappy : GenEnv := ⟨submitOk, fun _ => false, [doneOneSample], dlTriv⟩

/-- A run whose cancellation token is already set when the item starts
(a not-yet-started batch item whose slot frees after cancellation). -/
def envTokenSet : GenEnv := ⟨submitOk, fun _ => true, [], dlTriv⟩

/-- Claim C1: `generateVideo` first reports `loading`, never throws outward
(it is a total function into an update trace), and delivers exactly one
terminal callback: the update sequence of a finished run is exactly `loading`
followed by one terminal `success`/`error` update, with nothing after it,
and a still-in-flight run has delivered only `loading`. -/
theorem generateVideo_single_terminal (env : GenEnv) :
    ((generateVideo env).updates.head? = some Update.loading) ∧
    ((generateVideo env).finished = true →
      ∃ u, (generateVideo env).updates = [Update.loading, u] ∧ isTerminal u = true) ∧
    ((generateVideo env).finished = false →
      (generateVideo env).updates = [Update.loading]) := by
  unfold generateVideo
  cases hs : startVideoGeneration env.submit with
  | error m =>
    exact ⟨rfl, fun _ => ⟨Update.error m, rfl, rfl⟩, fun hf => Bool.noConfusion hf⟩
  | ok nm =>
    by_cases hsig : env.signal 0 = true
    · simp only [hsig, if_true]
      exact ⟨rfl, fun _ => ⟨Update.error "Cancelled", rfl, rfl⟩, fun hf => Bool.noConfusion hf⟩
    · simp only [Bool.not_eq_true] at hsig
      simp only [hsig, Bool.false_eq_true, if_false]
      rcases hp : pollLoop env.dl (fun k => env.signal (k + 1)) env.polls with ⟨evs, res⟩
      simp only [hp]
      cases res with
      | none => exact ⟨rfl, fun hf => Bool.noConfusion hf, fun _ => rfl⟩
      | some r =>
        cases r with
        | error m =>
          exact ⟨rfl, fun _ => ⟨Update.error m, rfl, rfl⟩, fun hf => Bool.noConfusion hf⟩
        | ok pair =>
          exact ⟨rfl, fun _ => ⟨Update.success pair.1 pair.2, rfl, rfl⟩,
            fun hf => Bool.noConfusion hf⟩

/-- Witness for C1 at a concrete finished run. -/
theorem generateVideo_single_terminal_witness :
    ∃ u, (generateVideo envHappy).updates = [Update.loading, u] ∧ isTerminal u = true :=
  (generateVideo_single_terminal envHappy).2.1 rfl

/-- Claim C4: each iteration of the polling loop consults the token before
and after the sleep.  A set token at the pre-sleep checkpoint aborts with
the error `Cancelled` having issued no event at all; a set token at the
post-sleep checkpoint aborts after only the sleep — in both cases no status
query and no download is issued from that point on.  A passing iteration
(response not done) re-enters the same doubly-checked loop with the
checkpoint index advanced by two. -/
theorem poll_cancellation_two_checks (dl : DlEnv) (signal : Nat → Bool)
    (polls : List PollResp) :
    (signal 0 = true → pollLoop dl signal polls = ([], some (.error "Cancelled"))) ∧
    (signal 0 = false → signal 1 = true →
      pollLoop dl signal polls = ([Ev.sleep 10000], some (.error "Cancelled"))) ∧
    (∀ r rest, polls = r :: rest → signal 0 = false → signal 1 = false →
      r.ok = true → r.done = false →
      pollLoop dl signal polls =
        (Ev.sleep 10000 :: Ev.statusQuery ::
            (pollLoop dl (fun k => signal (k + 2)) rest).1,
          (pollLoop dl (fun k => signal (k + 2)) rest).2)) := by
  refine ⟨?_, ?_, ?_⟩
  · intro h0; cases polls <;> simp [pollLoop, h0]
  · intro h0 h1; cases polls <;> simp [pollLoop, h0, h1]
  · intro r rest hp h0 h1 hok hdone
    subst hp
    simp [pollLoop, h0, h1, hok, hdone]

/-- Witness for C4: a token observed set at the pre-sleep checkpoint. -/
theorem poll_cancellation_two_checks_witness :
    pollLoop dlTriv (fun _ => true) [] = ([], some (.error "Cancelled")) :=
  (poll_cancellation_two_checks dlTriv (fun _ => true) []).1 rfl

/-- Claim C6: a status query reporting `done` with a missing or empty
sample list makes the poll throw `No video in response`, and the resulting
terminal state is `error` with that message — never `success` with empty
lists. -/
theorem poll_no_content_error (dl : DlEnv) (signal : Nat → Bool)
    (r : PollResp) (rest : List PollResp) (env : GenEnv) (nm : String) :
    ((signal 0 = false → signal 1 = false → r.ok = true → r.done = true →
      (r.samples = none ∨ r.samples = some []) →
      pollLoop dl signal (r :: rest) =
        ([Ev.sleep 10000, Ev.statusQuery], some (.error "No video in response")))) ∧
    (startVideoGeneration env.submit = .ok nm → (∀ k, env.signal k = false) →
      env.polls = r :: rest → r.ok = true → r.done = true →
      (r.samples = none ∨ r.samples = some []) →
      generateVideo env =
        ⟨[Ev.submitCall, Ev.sleep 10000, Ev.statusQuery],
          [Update.loading, Update.error "No video in response"], true⟩) := by
  constructor
  · intro h0 h1 hok hdone hsamp
    rcases hsamp with h | h <;> simp [pollLoop, h0, h1, hok, hdone, h]
  · intro hsub hsig hpolls hok hdone hsamp
    rcases hsamp with h | h <;>
      simp [generateVideo, hsub, hpolls, pollLoop, hsig, hok, hdone, h]

/-- Witness for C6: a completed operation with `generatedSamples: []`. -/
theorem poll_no_content_error_witness :
    pollLoop dlTriv (fun _ => false) [doneEmpty] =
      ([Ev.sleep 10000, Ev.statusQuery], some (.error "No video in response")) :=
  (poll_no_content_error dlTriv (fun _ => false) doneEmpty [] envHappy "nm").1
    rfl rfl rfl rfl (Or.inr rfl)

/-- The event trace of a run that is still polling after `n` not-done
responses: a 10-second sleep then a status query per iteration, then the
sleep of the next iteration. -/
def pendingTrace : Nat → List Ev
  | 0 => [.sleep 10000]
  | n + 1 => .sleep 10000 :: .statusQuery :: pendingTrace n

/-- Claim C7: the polling loop has no attempt cap or maximum wait: against
a provider that answers `done:false` any number `n` of times and an unset
token, the loop is still in flight (`none`) after every `n`, having slept a
fixed 10000 ms before each status query — it terminates only on completion,
a failed status query, or cancellation. -/
theorem poll_no_timeout (dl : DlEnv) (n : Nat) :
    pollLoop dl (fun _ => false) (List.replicate n neverDone) =
      (pendingTrace n, none) := by
  induction n with
  | zero => simp [pollLoop, pendingTrace]
  | succ m ih =>
    simp only [neverDone] at ih
    simp [List.replicate_succ, pollLoop, pendingTrace, neverDone, ih]

/-- Claim C10: a token already set when `generateVideo` is invoked does not
stop the `loading` update nor the submission call: the token is first
consulted only after submission completes.  With a successful submission the
item then settles to `error "Cancelled"` with no poll-status query, sleep or
download issued; with a failed submission the submission error (not
`Cancelled`) is reported, showing the token is not consulted earlier. -/
theorem preset_token_post_submit_check (env : GenEnv) (nm m : String) :
    (env.signal 0 = true → startVideoGeneration env.submit = .ok nm →
      generateVideo env =
        ⟨[Ev.submitCall], [Update.loading, Update.error "Cancelled"], true⟩) ∧
    (startVideoGeneration env.submit = .error m →
      generateVideo env =
        ⟨[Ev.submitCall], [Update.loading, Update.error m], true⟩) := by
  constructor
  · intro h0 hsub; simp [generateVideo, hsub, h0]
  · intro hsub; simp [generateVideo, hsub]

/-- Witness for C10: submission succeeds while the token is set from the
start; the submit call is issued and the item ends `error "Cancelled"`. -/
theorem preset_token_post_submit_check_witness :
    generateVideo envTokenSet =
      ⟨[Ev.submitCall], [Update.loading, Update.error "Cancelled"], true⟩ :=
  (preset_token_post_submit_check envTokenSet "operations/op-1" "m").1 rfl rfl

/-- Claim C2: under the bounded worker pool (cap 2 for video generation,
cap 3 for the image variant) at most cap-many tasks are in their `loading`
phase (`active`) in any reachable state, and tasks enter the pool in
input-array order: the start history is always a prefix of the input order,
with the remaining indices still queued in order. -/
theorem batch_concurrency_cap (n : Nat) (s : PoolState) :
    (PoolReachable (initPool videoConcurrencyLimit n) s →
      s.active.length ≤ 2 ∧ s.started ++ s.pending = List.range n ∧
        s.started = (List.range n).take s.started.length) ∧
    (PoolReachable (initPool imageConcurrencyLimit n) s →
      s.active.length ≤ 3 ∧ s.started ++ s.pending = List.range n ∧
        s.started = (List.range n).take s.started.length) := by
  constructor
  · intro h
    obtain ⟨hc, ha, hsp⟩ := pool_invariant h
    exact ⟨ha, hsp, by rw [← hsp, List.take_left]⟩
  · intro h
    obtain ⟨hc, ha, hsp⟩ := pool_invariant h
    exact ⟨ha, hsp, by rw [← hsp, List.take_left]⟩

/-- Witness for C2 at a concrete reachable pool state. -/
theorem batch_concurrency_cap_witness :
    (initPool videoConcurrencyLimit 4).active.length ≤ 2 ∧
    (initPool videoConcurrencyLimit 4).started ++
        (initPool videoConcurrencyLimit 4).pending = List.range 4 ∧
    (initPool videoConcurrencyLimit 4).started =
      (List.range 4).take (initPool videoConcurrencyLimit 4).started.length :=
  (batch_concurrency_cap 4 (initPool videoConcurrencyLimit 4)).1 PoolReachable.refl

/-- Download environment in which every fetch succeeds but saving sample 1
to disk fails. -/
def dlSaveFail : DlEnv :=
  ⟨fun _ => true, fun _ => 200, fun i => "blob" ++ Nat.repr i,
   fun i _ => if i = 1 then .error "disk full" else .ok ("path" ++ Nat.repr i),
   fun _ => 1700000000000⟩

/-- A completed status response carrying three samples. -/
def doneThreeSamples : PollResp := ⟨true, none, true, some ["u0", "u1", "u2"]⟩

/-- Counterexample to C3 as stated: when persisting the second of three
samples fails, the poll still resolves successfully, but the preview-URL
list keeps all three entries while the local-path list holds only two — the
two lists do not have the same cardinality, and the preview URL of the
failed sample is present.  (Moreover a failure of the download fetch itself, as
opposed to the save, aborts the whole poll — see the amended theorem.) -/
theorem sample_lists_cardinality_counterexample :
    (pollLoop dlSaveFail (fun _ => false) [doneThreeSamples]).2 =
      some (.ok (["blob0", "blob1", "blob2"], ["path0", "path2"])) ∧
    ¬ (["blob0", "blob1", "blob2"] : List String).length =
        (["path0", "path2"] : List String).length :=
  ⟨rfl, by decide⟩

/-- Claim C3 (amended): a failure to persist a single sample does not fail
the poll — the item still resolves successfully, with the preview-URL list
covering every sample and the local-path list possibly shorter; a failure
to download (fetch) a sample, by contrast, fails the whole poll with a
`Failed to download video` error. -/
theorem download_failure_handling (dl : DlEnv) (uris : List String) (j : Nat) :
    ((∀ k, k < uris.length → dl.fetchOk k = true) →
      ∃ us ps, (downloadLoop dl 0 uris).2 = .ok (us, ps) ∧
        us.length = uris.length ∧ ps.length ≤ uris.length) ∧
    (j < uris.length → (∀ k, k < j → dl.fetchOk k = true) → dl.fetchOk j = false →
      (downloadLoop dl 0 uris).2 =
        .error ("Failed to download video: " ++ Nat.repr (dl.fetchStatus j))) := by
  constructor
  · intro h
    exact downloadLoop_ok_shape dl uris 0 (fun k hk => by simpa using h k hk)
  · intro hj hpre hbad
    have h := downloadLoop_fetch_fail dl uris 0 j hj
      (fun k hk => by simpa using hpre k hk) (by simpa using hbad)
    simpa using h

/-- Witness for C3 (amended): all fetches succeed, one save fails. -/
theorem download_failure_handling_witness :
    ∃ us ps, (downloadLoop dlSaveFail 0 ["u0", "u1", "u2"]).2 = .ok (us, ps) ∧
      us.length = (["u0", "u1", "u2"] : List String).length ∧
      ps.length ≤ (["u0", "u1", "u2"] : List String).length :=
  (download_failure_handling dlSaveFail ["u0", "u1", "u2"] 0).1 (fun _ _ => rfl)

/-- Counterexample to C5 as stated: with the batch token set before this
item starts (a not-yet-started item whose pool slot frees after
cancellation), `generateVideo` still issues its submission network call —
so setting the token does not prevent further network calls from being
newly issued on behalf of the batch. -/
theorem cancel_batch_counterexample :
    (generateVideo envTokenSet).events = [Ev.submitCall] ∧
    (generateVideo envTokenSet).events ≠ [] :=
  ⟨rfl, by decide⟩

/-- Claim C5 (amended): once the shared batch token is set, every video
item (in flight or not yet started) settles into a terminal `error` state
and issues no poll-status query or download — but a not-yet-started video
item still issues its single submission call before first consulting the
token.  In the image tab, a task not yet started when the token is set
writes no update and issues no network call (its pre-check returns early),
and an in-flight task that observes cancellation keeps its `loading` status
(the catch clause returns without a terminal write). -/
theorem cancel_batch_settles (env : GenEnv) (sig : Nat → Bool)
    (images : List String) :
    ((∀ k, env.signal k = true) →
      (generateVideo env).finished = true ∧
      (∃ m, (generateVideo env).updates = [Update.loading, Update.error m]) ∧
      (generateVideo env).events = [Ev.submitCall]) ∧
    ((∀ k, sig k = true) → imageBatchTask sig images = ([], false)) ∧
    ((sig 0 = true ∨ (sig 0 = false ∧ sig 1 = true)) →
      (generateSingleImage sig images).1 = [ImUpdate.loading]) := by
  refine ⟨?_, ?_, ?_⟩
  · intro h
    unfold generateVideo
    cases hs : startVideoGeneration env.submit with
    | error m => exact ⟨rfl, ⟨m, rfl⟩, rfl⟩
    | ok nm =>
      rw [if_pos (h 0)]
      exact ⟨rfl, ⟨"Cancelled", rfl⟩, rfl⟩
  · intro h
    simp [imageBatchTask, h 0]
  · intro h
    rcases h with h0 | ⟨h0, h1⟩
    · simp [generateSingleImage, h0]
    · simp [generateSingleImage, h0, h1]

/-- Witness for C5 (amended): a not-yet-started image-tab task under a set
token does nothing. -/
theorem cancel_batch_settles_witness :
    imageBatchTask (fun _ => true) ["img0"] = ([], false) :=
  (cancel_batch_settles envTokenSet (fun _ => true) ["img0"]).2.1 (fun _ => rfl)

/-- Counterexample to C8 as stated: the synthesized filename depends only
on the observed timestamp and the per-operation sample index, so two
downloads belonging to two distinct concurrent operations that observe the
same epoch-millisecond and the same sample index produce identical
filenames. -/
theorem filename_collision_counterexample :
    ¬ (∀ (op1 op2 t1 i1 t2 i2 : Nat), op1 ≠ op2 →
        mkVideoFilename t1 i1 ≠ mkVideoFilename t2 i2) := by
  intro h
  exact h 0 1 1700000000000 0 1700000000000 0 (by decide) rfl

/-- Claim C8 (amended): within a single operation the synthesized filenames
never collide — even under a forced identical timestamp, distinct sample
indices yield distinct filenames (decimal rendering of the index is
injective); across distinct concurrent operations uniqueness is not
guaranteed when both the timestamp and the sample index coincide. -/
theorem filename_uniqueness_same_operation (t i j : Nat) :
    i ≠ j → mkVideoFilename t i ≠ mkVideoFilename t j :=
  fun hij heq => hij (mkVideoFilename_index_inj heq)

/-- Witness for C8 (amended) under a forced timestamp collision. -/
theorem filename_uniqueness_same_operation_witness :
    mkVideoFilename 1700000000000 0 ≠ mkVideoFilename 1700000000000 1 :=
  filename_uniqueness_same_operation 1700000000000 0 1 (by decide)

lemma hasParameters_eq_false (p : GenerateVideoParams) :
    hasParameters p = false ↔
      p.aspectRatio = none ∧ p.lastFrame = none ∧
        (p.referenceImages = none ∨ p.referenceImages = some []) := by
  unfold hasParameters
  rcases hA : p.aspectRatio with _ | a <;>
    rcases hL : p.lastFrame with _ | l <;>
      rcases hR : p.referenceImages with _ | refs <;>
        simp

/-- Claim C9: the submitted request body contains exactly one instance,
holding the prompt and (if present) the primary image as inline data; the
optional `parameters` object is omitted entirely exactly when no aspect
ratio, no last-frame image and no non-empty reference-image list applies;
when present, every reference-image entry is tagged `referenceType:
"asset"`. -/
theorem request_body_shape (p : GenerateVideoParams) :
    ((buildRequestBody p).instances = [⟨p.prompt, p.image.map toInline⟩]) ∧
    ((buildRequestBody p).parameters = none ↔
      p.aspectRatio = none ∧ p.lastFrame = none ∧
        (p.referenceImages = none ∨ p.referenceImages = some [])) ∧
    (∀ ps refs, (buildRequestBody p).parameters = some ps →
      ps.referenceImages = some refs → ∀ e ∈ refs, e.referenceType = "asset") := by
  refine ⟨rfl, ?_, ?_⟩
  · simp only [buildRequestBody]
    by_cases hp : hasParameters p = true
    · rw [if_pos hp]
      constructor
      · intro h; exact Option.noConfusion h
      · intro hr
        have hf := (hasParameters_eq_false p).mpr hr
        rw [hf] at hp
        exact Bool.noConfusion hp
    · rw [if_neg hp]
      have hf : hasParameters p = false := by
        cases hx : hasParameters p
        · rfl
        · exact absurd hx hp
      exact ⟨fun _ => (hasParameters_eq_false p).mp hf, fun _ => rfl⟩
  · intro ps refs hps hrefs e he
    simp only [buildRequestBody] at hps
    by_cases hp : hasParameters p = true
    · rw [if_pos hp] at hps
      have hbody := Option.some.inj hps
      rw [← hbody] at hrefs
      simp only at hrefs
      rcases hR : p.referenceImages with _ | rl
      · rw [hR] at hrefs
        exact Option.noConfusion hrefs
      · rw [hR] at hrefs
        simp only [] at hrefs
        by_cases h0 : 0 < rl.length
        · rw [if_pos h0] at hrefs
          have hm := Option.some.inj hrefs
          rw [← hm] at he
          obtain ⟨img, _, himg⟩ := List.mem_map.mp he
          rw [← himg]
        · rw [if_neg h0] at hrefs
          exact Option.noConfusion hrefs
    · rw [if_neg hp] at hps
      exact Option.noConfusion hps

/-- A request with no optional fields set. -/
def paramsBare : GenerateVideoParams :=
  ⟨"a cat", "veo-3.0-generate-preview", "key", none, none, none, none, none⟩

/-- Witness for C9: with nothing applying, `parameters` is omitted. -/
theorem request_body_shape_witness :
    (buildRequestBody paramsBare).parameters = none :=
  (request_body_shape paramsBare).2.1.mpr ⟨rfl, rfl, Or.inl rfl⟩

end Veo3
